import Mathlib

/-!
Verification of an Express/Node.js observability core (winston correlated
logger, prom-client RED-metric middleware, OTLP traces-URL resolution) by a
shallow embedding of its source files (`app/logger.js`, `app/app.js`,
`app/otel.js`) into Lean.

Machine values are modelled as follows: JS strings are `String`, JS numbers
appearing here (status codes, parsed query integers) are `Int`, the
nanosecond duration from `process.hrtime.bigint()` differences is a `Nat`
and the derived seconds value a rational, and JS object metadata is an
ordered association list (`Meta`), with property assignment modelled by an
in-place ordered update (`setMeta`). Falsiness of JS strings/numbers
(empty string and `0` are falsy) is modelled explicitly where the source
relies on it (`||`, ternary tests).
-/

set_option autoImplicit false

namespace Observability

/-- A primitive JSON-ish value stored in log metadata: the source stores
both strings (trace ids, routes) and numbers (status codes). -/
inductive JsonVal where
  | str (s : String)
  | num (n : Int)
deriving DecidableEq, Repr

/-- JS object metadata for a log call: an ordered key/value map. -/
abbrev Meta := List (String × JsonVal)

/-- JS property assignment `m[k] = v`: overwrite in place if the key is
present (keeping its position), otherwise append at the end. -/
def setMeta (m : Meta) (k : String) (v : JsonVal) : Meta :=
  match m with
  | [] => [(k, v)]
  | (k2, v2) :: rest => if k2 = k then (k, v) :: rest else (k2, v2) :: setMeta rest k v

/-- JS property read `m[k]`: first binding of the key, if any. -/
def metaLookup (k : String) : Meta → Option JsonVal
  | [] => none
  | (k2, v) :: rest => if k2 = k then some v else metaLookup k rest

/-- The span context visible through `api.trace.getSpan(api.context.active())`:
`span.spanContext()` exposes `traceId` and `spanId`. -/
structure SpanCtx where
  traceId : String
  spanId : String
deriving DecidableEq, Repr

/-- One structured record handed to the winston sink by `logger.log`. -/
structure LogRecord where
  level : String
  message : String
  meta : Meta
deriving DecidableEq, Repr

/-- `logger.js` lines 14-22, the correlated `log` helper:

    const log = (level, message, meta = {}) => {
      const span = api.trace.getSpan(api.context.active());
      if (span) {
        const { traceId, spanId } = span.spanContext();
        meta.trace_id = traceId;
        meta.span_id = spanId;
      }
      logger.log(level, message, meta);
    };

The active span of the calling execution context is passed explicitly as
`sp` (the embedding of `api.trace.getSpan(api.context.active())`, which is
`none` outside any traced request). The function returns the record passed
to the underlying winston sink. -/
def log (sp : Option SpanCtx) (level message : String) (meta : Meta) : LogRecord :=
  match sp with
  | some s =>
      { level := level, message := message
        meta := setMeta (setMeta meta "trace_id" (JsonVal.str s.traceId)) "span_id" (JsonVal.str s.spanId) }
  | none => { level := level, message := message, meta := meta }

/-- `logger.js` lines 24-29, `module.exports`: each exported level wrapper
forwards unconditionally to `log` with a fixed severity tag. The result
lists the `logger.log` sink calls the wrapper performs (always exactly
one; the core contains no filtering branch). -/
def loggerDebugCalls (sp : Option SpanCtx) (msg : String) (meta : Meta) : List LogRecord :=
  [log sp "debug" msg meta]

/-- `logger.js` line 25: `info: (msg, meta) => log("info", msg, meta)`. -/
def loggerInfoCalls (sp : Option SpanCtx) (msg : String) (meta : Meta) : List LogRecord :=
  [log sp "info" msg meta]

/-- `logger.js` line 27: `warn: (msg, meta) => log("warn", msg, meta)`. -/
def loggerWarnCalls (sp : Option SpanCtx) (msg : String) (meta : Meta) : List LogRecord :=
  [log sp "warn" msg meta]

/-- `logger.js` line 26: `error: (msg, meta) => log("error", msg, meta)`. -/
def loggerErrorCalls (sp : Option SpanCtx) (msg : String) (meta : Meta) : List LogRecord :=
  [log sp "error" msg meta]

theorem metaLookup_setMeta_self (m : Meta) (k : String) (v : JsonVal) :
    metaLookup k (setMeta m k v) = some v := by
  induction m with
  | nil => simp [setMeta, metaLookup]
  | cons p rest ih =>
    obtain ⟨k2, v2⟩ := p
    by_cases h : k2 = k
    · simp [setMeta, metaLookup, h]
    · simp [setMeta, metaLookup, h, ih]

theorem metaLookup_setMeta_ne (m : Meta) (k k2 : String) (v : JsonVal) (h : k2 ≠ k) :
    metaLookup k2 (setMeta m k v) = metaLookup k2 m := by
  have hk : k ≠ k2 := fun hh => h hh.symm
  induction m with
  | nil => simp [setMeta, metaLookup, hk]
  | cons p rest ih =>
    obtain ⟨k3, v3⟩ := p
    by_cases h3 : k3 = k
    · subst h3
      simp [setMeta, metaLookup, hk]
    · simp [setMeta, metaLookup, h3, ih]

/-! ## RED-metric middleware (`app.js`) -/

/-- The `{method, route, status_code}` label set shared by the three custom
metrics (`app.js` lines 43-60). -/
structure Labels where
  method : String
  route : String
  status_code : String
deriving DecidableEq, Repr

/-- One observable instrumentation action of the embedded code: a histogram
observation of `http_request_duration_seconds`, an increment of
`http_requests_total`, an increment of `http_errors_total`, or a record
handed to the winston sink. -/
inductive Event where
  | observeDuration (labels : Labels) (seconds : ℚ)
  | incRequests (labels : Labels)
  | incErrors (labels : Labels)
  | logEmit (record : LogRecord)
deriving DecidableEq, Repr

/-- JS `o || d` on an optional string, where the empty string is falsy. -/
def jsStrOr (o : Option String) (d : String) : String :=
  match o with
  | none => d
  | some s => if s = "" then d else s

/-- `app.js` lines 67-68: the route label
`req.route && req.route.path ? req.route.path : req.path || "unknown"`.
`rp` embeds `req.route.path` when `req.route` exists (`none` when absent),
`p` embeds `req.path`; JS truthiness makes the empty string fall through. -/
def routeLabel (rp p : Option String) : String :=
  match rp with
  | some r => if r = "" then jsStrOr p "unknown" else r
  | none => jsStrOr p "unknown"

/-- The data available to the `res.on("finish")` callback when it runs:
request method, `req.route.path` / `req.path`, the final
`res.statusCode`, the elapsed nanoseconds `end - start` between the two
`process.hrtime.bigint()` reads, and the span active in the callback's
execution context (used by the correlated logger). -/
structure FinishInput where
  method : String
  routePath : Option String
  path : Option String
  statusCode : Int
  durationNs : Nat
  activeSpan : Option SpanCtx
deriving Repr

/-- The label set the finish callback builds (`app.js` lines 69-73):
`{method: req.method, route, status_code: String(res.statusCode)}`. -/
def finishLabels (fi : FinishInput) : Labels :=
  { method := fi.method
    route := routeLabel fi.routePath fi.path
    status_code := toString fi.statusCode }

/-- `app.js` lines 64-88, the body of the `res.on("finish")` callback, as
the sequence of instrumentation events it performs:

    const end = process.hrtime.bigint();
    const durationSeconds = Number(end - start) / 1e9;
    const route = req.route && req.route.path ? req.route.path : req.path || "unknown";
    const labels = { method: req.method, route, status_code: String(res.statusCode) };
    httpRequestDuration.observe(labels, durationSeconds);
    httpRequestsTotal.inc(labels);
    if (res.statusCode >= 500) {
      httpErrorsTotal.inc(labels);
      logger.error(`Request failed: ...`, { status_code, route });
    } else {
      logger.info(`Request processed: ...`, { status_code, route });
    }
-/
def finishHandler (fi : FinishInput) : List Event :=
  let route := routeLabel fi.routePath fi.path
  let labels := finishLabels fi
  let durationSeconds : ℚ := (fi.durationNs : ℚ) / 1000000000
  Event.observeDuration labels durationSeconds ::
  Event.incRequests labels ::
  (if 500 ≤ fi.statusCode then
    [Event.incErrors labels,
     Event.logEmit (log fi.activeSpan "error"
       ("Request failed: " ++ fi.method ++ " " ++ route)
       [("status_code", JsonVal.num fi.statusCode), ("route", JsonVal.str route)])]
  else
    [Event.logEmit (log fi.activeSpan "info"
       ("Request processed: " ++ fi.method ++ " " ++ route)
       [("status_code", JsonVal.num fi.statusCode), ("route", JsonVal.str route)])])

/-- How a request's response lifecycle ends, as seen by Node's
`http.ServerResponse` events: `finished` means the response was fully
written out (Node emits the `finish` event); `aborted` means the client
disconnected before the response completed (Node emits `close` but never
`finish`). -/
inductive Exit where
  | finished
  | aborted
deriving DecidableEq, Repr

/-- One request through the app (`app.js` lines 62-90): the middleware
registers the terminal callback with `res.on("finish", ...)` and calls
`next()`; the downstream handler emits `handlerEvents`; the terminal
callback then runs only on the exit paths where Node emits `finish`. -/
def processRequest (handlerEvents : List Event) (fi : FinishInput) (ex : Exit) : List Event :=
  handlerEvents ++
  (match ex with
   | Exit.finished => finishHandler fi
   | Exit.aborted => [])

/-- Number of events in a trace satisfying a predicate. -/
def countEvents (p : Event → Bool) (es : List Event) : Nat :=
  es.countP p

def isDurationObsWith (l : Labels) : Event → Bool
  | Event.observeDuration l2 _ => decide (l2 = l)
  | _ => false

def isDurationObsAny : Event → Bool
  | Event.observeDuration _ _ => true
  | _ => false

def isReqIncWith (l : Labels) : Event → Bool
  | Event.incRequests l2 => decide (l2 = l)
  | _ => false

def isReqIncAny : Event → Bool
  | Event.incRequests _ => true
  | _ => false

def isErrIncWith (l : Labels) : Event → Bool
  | Event.incErrors l2 => decide (l2 = l)
  | _ => false

def isErrIncAny : Event → Bool
  | Event.incErrors _ => true
  | _ => false

def isLogAny : Event → Bool
  | Event.logEmit _ => true
  | _ => false

def isLogWithLevel (lvl : String) : Event → Bool
  | Event.logEmit r => decide (r.level = lvl)
  | _ => false

/-! ## Simulation route handlers (`app.js` lines 102-113) -/

def digitsVal (cs : List Char) : Nat :=
  cs.foldl (fun a c => a * 10 + (c.toNat - 48)) 0

/-- The platform function `parseInt(s)` restricted to radix-10 inputs (the
only kind these handlers receive): skip leading spaces, accept an optional
sign, read the leading run of decimal digits and ignore the rest; `none`
models the `NaN` result when no digit is found. -/
def parseIntJs (s : String) : Option Int :=
  let cs := s.data.dropWhile (fun c => c == ' ')
  match cs with
  | '-' :: rest =>
      let ds := rest.takeWhile Char.isDigit
      if ds.isEmpty then none else some (-(digitsVal ds : Int))
  | '+' :: rest =>
      let ds := rest.takeWhile Char.isDigit
      if ds.isEmpty then none else some (digitsVal ds : Int)
  | _ =>
      let ds := cs.takeWhile Char.isDigit
      if ds.isEmpty then none else some (digitsVal ds : Int)

/-- JS `parseInt(q) || d` on an optional query-string value: an absent
parameter parses to `NaN` (falsy), and a parsed `0` is falsy too. -/
def jsToIntOr (q : Option String) (d : Int) : Int :=
  match q with
  | none => d
  | some s =>
    match parseIntJs s with
    | none => d
    | some n => if n = 0 then d else n

/-- `app.js` lines 102-107, `GET /simulate-latency`: computes
`delay = parseInt(req.query.ms) || 500`, logs at info level, awaits
`setTimeout(delay)` and responds 200. The result pairs the events the
handler emits with the response status code; `sp` is the span active in
the handler's execution context. -/
def simulateLatencyHandler (sp : Option SpanCtx) (ms : Option String) : List Event × Int :=
  let delay := jsToIntOr ms 500
  ([Event.logEmit (log sp "info" ("Simulating latency of " ++ toString delay ++ "ms") [])], 200)

/-- `app.js` lines 109-113, `GET /simulate-error`: computes
`code = parseInt(req.query.code) || 500`, logs at warn level and responds
with status `code`. -/
def simulateErrorHandler (sp : Option SpanCtx) (code : Option String) : List Event × Int :=
  let c := jsToIntOr code 500
  ([Event.logEmit (log sp "warn" ("Simulating error with code " ++ toString c) [])], c)

/-! ## OTLP traces-URL resolution (`otel.js` lines 158-166) -/

/-- `t` is a prefix of `s` (character lists compared left to right). -/
def listIsPrefix : List Char → List Char → Bool
  | [], _ => true
  | _ :: _, [] => false
  | a :: as, b :: bs => decide (a = b) && listIsPrefix as bs

/-- `s` ends with `t`. -/
def strEndsWith (s t : String) : Bool :=
  listIsPrefix t.data.reverse s.data.reverse

/-- The test `/\x5c/v1\x5c/traces\x5c/?$/.test(base)`: `base` ends with
`/v1/traces` optionally followed by one `/`. -/
def endsWithV1Traces (s : String) : Bool :=
  strEndsWith s "/v1/traces" || strEndsWith s "/v1/traces/"

/-- `base.replace(/\x5c/+$/, "")`: remove every trailing `/`. -/
def stripTrailingSlashes (s : String) : String :=
  String.mk ((s.data.reverse.dropWhile (fun c => c == '/')).reverse)

/-- `otel.js` lines 163-165: keep a base that already points at
`/v1/traces`, otherwise strip trailing slashes and append `/v1/traces`. -/
def normalizeTracesBase (base : String) : String :=
  if endsWithV1Traces base then base
  else stripTrailingSlashes base ++ "/v1/traces"

/-- `otel.js` lines 158-166, `resolveTracesUrl`: the base comes from
`OTEL_EXPORTER_OTLP_TRACES_ENDPOINT || OTEL_EXPORTER_OTLP_ENDPOINT ||
"http://jaeger:4318"` and is then normalized. -/
def resolveTracesUrl (tracesEnv otlpEnv : Option String) : String :=
  normalizeTracesBase (jsStrOr tracesEnv (jsStrOr otlpEnv "http://jaeger:4318"))

theorem listIsPrefix_append_self : ∀ (t s : List Char), listIsPrefix t (t ++ s) = true := by
  intro t
  induction t with
  | nil => intro s; rfl
  | cons a as ih => intro s; simp [listIsPrefix, ih]

theorem str_data_append (s t : String) : (s ++ t).data = s.data ++ t.data := by
  cases s
  cases t
  rfl

theorem strEndsWith_append (s t : String) : strEndsWith (s ++ t) t = true := by
  unfold strEndsWith
  rw [str_data_append, List.reverse_append]
  exact listIsPrefix_append_self _ _

theorem endsWithV1Traces_normalize (base : String) :
    endsWithV1Traces (normalizeTracesBase base) = true := by
  by_cases h : endsWithV1Traces base = true
  · simp [normalizeTracesBase, h]
  · simp only [normalizeTracesBase, h, Bool.false_eq_true, if_false]
    simp [endsWithV1Traces, strEndsWith_append]

theorem log_level (sp : Option SpanCtx) (lvl msg : String) (meta : Meta) :
    (log sp lvl msg meta).level = lvl := by
  cases sp <;> rfl

theorem log_message (sp : Option SpanCtx) (lvl msg : String) (meta : Meta) :
    (log sp lvl msg meta).message = msg := by
  cases sp <;> rfl

/-! ## Claims -/

/-- C2: for every call `log(level, message, metadata)`, if a span is active
in the calling execution context the emitted record carries the caller's
level and message, maps `trace_id` and `span_id` to that span's
identifiers, and agrees with the caller's metadata on every other key
(i.e. equals the caller's metadata merged with the span identifiers); if
no span is active the metadata is emitted unchanged (and the function is
total, so no error is raised). -/
theorem log_injects_trace_context (sp : SpanCtx) (lvl msg : String) (meta : Meta) :
    (log (some sp) lvl msg meta).level = lvl ∧
    (log (some sp) lvl msg meta).message = msg ∧
    metaLookup "trace_id" (log (some sp) lvl msg meta).meta = some (JsonVal.str sp.traceId) ∧
    metaLookup "span_id" (log (some sp) lvl msg meta).meta = some (JsonVal.str sp.spanId) ∧
    (∀ k : String, k ≠ "trace_id" → k ≠ "span_id" →
      metaLookup k (log (some sp) lvl msg meta).meta = metaLookup k meta) ∧
    log none lvl msg meta = { level := lvl, message := msg, meta := meta } := by
  refine ⟨rfl, rfl, ?_, ?_, ?_, rfl⟩
  · show metaLookup "trace_id"
      (setMeta (setMeta meta "trace_id" (JsonVal.str sp.traceId)) "span_id" (JsonVal.str sp.spanId)) = _
    rw [metaLookup_setMeta_ne _ _ _ _ (by decide), metaLookup_setMeta_self]
  · exact metaLookup_setMeta_self _ _ _
  · intro k h1 h2
    show metaLookup k
      (setMeta (setMeta meta "trace_id" (JsonVal.str sp.traceId)) "span_id" (JsonVal.str sp.spanId)) = _
    rw [metaLookup_setMeta_ne _ _ _ _ h2, metaLookup_setMeta_ne _ _ _ _ h1]

theorem log_injects_trace_context_witness :
    metaLookup "trace_id" (log (some ⟨"t1", "s1"⟩) "info" "hello" [("user", JsonVal.str "u1")]).meta
      = some (JsonVal.str "t1") ∧
    metaLookup "span_id" (log (some ⟨"t1", "s1"⟩) "info" "hello" [("user", JsonVal.str "u1")]).meta
      = some (JsonVal.str "s1") ∧
    metaLookup "user" (log (some ⟨"t1", "s1"⟩) "info" "hello" [("user", JsonVal.str "u1")]).meta
      = some (JsonVal.str "u1") := by
  have h := log_injects_trace_context ⟨"t1", "s1"⟩ "info" "hello" [("user", JsonVal.str "u1")]
  exact ⟨h.2.2.1, h.2.2.2.1, h.2.2.2.2.1 "user" (by decide) (by decide)⟩

/-- C7: the four exported levels `debug`, `info`, `warn`, `error` are plain
pass-through severity tags: each wrapper makes exactly one `logger.log`
sink call carrying its level tag and the caller's message, with no
filtering in the core. -/
theorem logger_levels_pass_through (sp : Option SpanCtx) (msg : String) (meta : Meta) :
    (loggerDebugCalls sp msg meta).map LogRecord.level = ["debug"] ∧
    (loggerInfoCalls sp msg meta).map LogRecord.level = ["info"] ∧
    (loggerWarnCalls sp msg meta).map LogRecord.level = ["warn"] ∧
    (loggerErrorCalls sp msg meta).map LogRecord.level = ["error"] ∧
    (loggerDebugCalls sp msg meta).map LogRecord.message = [msg] ∧
    (loggerInfoCalls sp msg meta).map LogRecord.message = [msg] ∧
    (loggerWarnCalls sp msg meta).map LogRecord.message = [msg] ∧
    (loggerErrorCalls sp msg meta).map LogRecord.message = [msg] := by
  simp [loggerDebugCalls, loggerInfoCalls, loggerWarnCalls, loggerErrorCalls,
    log_level, log_message]

/-- C5: the route label is the matched route pattern when one exists (route
patterns are nonempty strings in Express), otherwise the raw request path
(likewise nonempty), otherwise the literal `"unknown"`. -/
theorem route_label_precedence (rp p : String) (hrp : rp ≠ "") (hp : p ≠ "") :
    (∀ q : Option String, routeLabel (some rp) q = rp) ∧
    routeLabel none (some p) = p ∧
    routeLabel none none = "unknown" := by
  refine ⟨fun q => ?_, ?_, rfl⟩
  · simp [routeLabel, hrp]
  · simp [routeLabel, jsStrOr, hp]

theorem route_label_precedence_witness :
    routeLabel (some "/users") (some "/users/42") = "/users" ∧
    routeLabel none (some "/users/42") = "/users/42" ∧
    routeLabel none none = "unknown" := by
  have h := route_label_precedence "/users" "/users/42" (by decide) (by decide)
  exact ⟨h.1 (some "/users/42"), h.2.1, h.2.2⟩

/-- C10 counterexample: for the base URL `http://jaeger:4318/v1/traces/`
(already pointing at the traces path but with a trailing slash) the
resolver returns it as-is, so the result does not end in `/v1/traces` —
refuting the claim's universal "returns a URL ending in /v1/traces". -/
theorem resolve_traces_url_counterexample :
    strEndsWith (resolveTracesUrl (some "http://jaeger:4318/v1/traces/") none) "/v1/traces" = false := by
  decide

/-- C10 amended: `resolveTracesUrl` returns a URL ending in `/v1/traces`
optionally followed by one trailing slash: a base already ending in
`/v1/traces` (optionally with a trailing slash) is returned as-is,
otherwise trailing slashes are stripped and `/v1/traces` appended; with
neither environment variable set the base defaults to
`http://jaeger:4318`; the normalization is idempotent. -/
theorem resolve_traces_url_normalization (base : String) :
    endsWithV1Traces (normalizeTracesBase base) = true ∧
    normalizeTracesBase base =
      (if endsWithV1Traces base then base else stripTrailingSlashes base ++ "/v1/traces") ∧
    resolveTracesUrl none none = "http://jaeger:4318/v1/traces" ∧
    normalizeTracesBase (normalizeTracesBase base) = normalizeTracesBase base := by
  refine ⟨endsWithV1Traces_normalize base, rfl, by decide, ?_⟩
  show (if endsWithV1Traces (normalizeTracesBase base) then normalizeTracesBase base
        else stripTrailingSlashes (normalizeTracesBase base) ++ "/v1/traces")
      = normalizeTracesBase base
  simp [endsWithV1Traces_normalize base]

/-- C1: on every run of the terminal `finish` callback,
`http_request_duration_seconds` is observed exactly once and
`http_requests_total` is incremented exactly once, both with the derived
labels `{method, route, status_code}`, and `http_errors_total` is
incremented with the same labels exactly once if the status code is at
least 500 and not at all otherwise. -/
theorem middleware_terminal_metrics_once (fi : FinishInput) :
    countEvents (isDurationObsWith (finishLabels fi)) (finishHandler fi) = 1 ∧
    countEvents isDurationObsAny (finishHandler fi) = 1 ∧
    countEvents (isReqIncWith (finishLabels fi)) (finishHandler fi) = 1 ∧
    countEvents isReqIncAny (finishHandler fi) = 1 ∧
    countEvents (isErrIncWith (finishLabels fi)) (finishHandler fi)
      = (if 500 ≤ fi.statusCode then 1 else 0) ∧
    countEvents isErrIncAny (finishHandler fi) = (if 500 ≤ fi.statusCode then 1 else 0) := by
  by_cases h : 500 ≤ fi.statusCode <;>
    simp [finishHandler, countEvents, h, List.countP_cons, List.countP_nil,
      isDurationObsWith, isDurationObsAny, isReqIncWith, isReqIncAny,
      isErrIncWith, isErrIncAny]

/-- C4: the terminal `finish` callback emits exactly one log line per run:
an error-level line (within the claim's "warn/error" band) when the final
status code is at least 500, and an info-level line otherwise. -/
theorem terminal_log_level_and_uniqueness (fi : FinishInput) :
    countEvents isLogAny (finishHandler fi) = 1 ∧
    countEvents (isLogWithLevel "error") (finishHandler fi)
      = (if 500 ≤ fi.statusCode then 1 else 0) ∧
    countEvents (isLogWithLevel "info") (finishHandler fi)
      = (if 500 ≤ fi.statusCode then 0 else 1) := by
  by_cases h : 500 ≤ fi.statusCode <;>
    simp [finishHandler, countEvents, h, List.countP_cons, List.countP_nil,
      isLogAny, isLogWithLevel, log_level]

/-- C3 evaluation: the middleware registers its terminal transition only on
the `finish` event; Node does not emit `finish` for a response aborted by
a client disconnect, so on that exit path no duration observation, no
counter increment and no terminal log occur at all, while the normal exit
path produces them — the claim's "fires exactly once on every exit path,
including ... aborted mid-flight" fails on the abort path. -/
theorem abort_skips_terminal_transition :
    processRequest []
      { method := "GET", routePath := some "/simulate-latency", path := some "/simulate-latency",
        statusCode := 200, durationNs := 1500000000, activeSpan := none } Exit.aborted = [] ∧
    countEvents isDurationObsAny (processRequest []
      { method := "GET", routePath := some "/simulate-latency", path := some "/simulate-latency",
        statusCode := 200, durationNs := 1500000000, activeSpan := none } Exit.finished) = 1 ∧
    countEvents isReqIncAny (processRequest []
      { method := "GET", routePath := some "/simulate-latency", path := some "/simulate-latency",
        statusCode := 200, durationNs := 1500000000, activeSpan := none } Exit.finished) = 1 := by
  exact ⟨rfl, rfl, rfl⟩

/-- C6: a `GET /simulate-error` request defaulting to status 500, processed
to the `finish` event, increments `http_requests_total` and
`http_errors_total` each exactly once with labels
`{method: "GET", route: "/simulate-error", status_code: "500"}` and emits
exactly one warn-level log line (from the handler). -/
theorem simulate_error_scenario :
    countEvents (isReqIncWith { method := "GET", route := "/simulate-error", status_code := "500" })
      (processRequest (simulateErrorHandler (some ⟨"t0", "s0"⟩) none).1
        { method := "GET", routePath := some "/simulate-error", path := some "/simulate-error",
          statusCode := (simulateErrorHandler (some ⟨"t0", "s0"⟩) none).2,
          durationNs := 2000000, activeSpan := some ⟨"t0", "s0"⟩ } Exit.finished) = 1 ∧
    countEvents (isErrIncWith { method := "GET", route := "/simulate-error", status_code := "500" })
      (processRequest (simulateErrorHandler (some ⟨"t0", "s0"⟩) none).1
        { method := "GET", routePath := some "/simulate-error", path := some "/simulate-error",
          statusCode := (simulateErrorHandler (some ⟨"t0", "s0"⟩) none).2,
          durationNs := 2000000, activeSpan := some ⟨"t0", "s0"⟩ } Exit.finished) = 1 ∧
    countEvents (isLogWithLevel "warn")
      (processRequest (simulateErrorHandler (some ⟨"t0", "s0"⟩) none).1
        { method := "GET", routePath := some "/simulate-error", path := some "/simulate-error",
          statusCode := (simulateErrorHandler (some ⟨"t0", "s0"⟩) none).2,
          durationNs := 2000000, activeSpan := some ⟨"t0", "s0"⟩ } Exit.finished) = 1 := by
  exact ⟨rfl, rfl, rfl⟩

/-- C9: a `GET /simulate-latency` request with the default 500ms target
delay (so the handler really takes at least 500000000ns, the `setTimeout`
guarantee) and an active span with a non-empty trace id, processed to the
`finish` event, yields exactly one `http_request_duration_seconds`
observation with labels `{method: "GET", route: "/simulate-latency",
status_code: "200"}` whose value `d / 1e9` is at least half a second, and
the handler's single log call is an info-level record whose message
references the 500ms delay and whose metadata carries the (non-empty)
trace id. -/
theorem simulate_latency_scenario (d : Nat) (sp : SpanCtx)
    (hd : 500000000 ≤ d) (ht : sp.traceId ≠ "") :
    let handler := simulateLatencyHandler (some sp) none
    let es := processRequest handler.1
      { method := "GET", routePath := some "/simulate-latency", path := some "/simulate-latency",
        statusCode := handler.2, durationNs := d, activeSpan := some sp } Exit.finished
    countEvents (isDurationObsWith { method := "GET", route := "/simulate-latency", status_code := "200" }) es = 1 ∧
    Event.observeDuration { method := "GET", route := "/simulate-latency", status_code := "200" }
      ((d : ℚ) / 1000000000) ∈ es ∧
    (1 : ℚ) / 2 ≤ (d : ℚ) / 1000000000 ∧
    handler.1 = [Event.logEmit
      { level := "info", message := "Simulating latency of 500ms",
        meta := [("trace_id", JsonVal.str sp.traceId), ("span_id", JsonVal.str sp.spanId)] }] ∧
    sp.traceId ≠ "" := by
  refine ⟨rfl, ?_, ?_, rfl, ht⟩
  · exact List.Mem.tail _ (List.Mem.head _)
  · have hd2 : (500000000 : ℚ) ≤ (d : ℚ) := by exact_mod_cast hd
    rw [div_le_div_iff₀ (by norm_num) (by norm_num)]
    linarith

theorem simulate_latency_scenario_witness :
    500000000 ≤ 600000000 ∧ ("abc1" : String) ≠ "" ∧
    countEvents (isDurationObsWith { method := "GET", route := "/simulate-latency", status_code := "200" })
      (processRequest (simulateLatencyHandler (some ⟨"abc1", "def1"⟩) none).1
        { method := "GET", routePath := some "/simulate-latency", path := some "/simulate-latency",
          statusCode := (simulateLatencyHandler (some ⟨"abc1", "def1"⟩) none).2,
          durationNs := 600000000, activeSpan := some ⟨"abc1", "def1"⟩ } Exit.finished) = 1 ∧
    (1 : ℚ) / 2 ≤ ((600000000 : Nat) : ℚ) / 1000000000 := by
  have h := simulate_latency_scenario 600000000 ⟨"abc1", "def1"⟩ (by decide) (by decide)
  exact ⟨by decide, by decide, h.1, h.2.2.1⟩

end Observability
